import Mathlib

/-!
Verification of the `mio` memory-mapping library header `include/mio/mmap.hpp`
against its natural-language specification.

The repository ships only the public wrapper `basic_mmap<AccessMode, CharT>`
(`include/mio/mmap.hpp`); the platform implementation
`detail/basic_mmap.hpp` it delegates to is not part of the sources.  The
wrapper's own code (the `char_size`/`byte_size` conversions, the enable_if
capability guards, the constructors, the factory functions) is embedded
directly from the source; the behaviour of the missing `detail::basic_mmap`
implementation (map, unmap, set_length, set_offset, is_open, empty, the
aligned-region computation) is modelled from the specification, as marked in
each doc comment.

Machine integers: the source's `size_type` is a 64-bit unsigned integer; it
is modelled as `Nat`, with an explicit `% 2 ^ 64` where a left shift can
overflow.  Pointers, handles and path tokens are modelled as `Nat`; an
unmapped `data()` pointer is `Option.none` (the null pointer).
-/

namespace mio

/-- Width of the source's `size_type` (a 64-bit unsigned integer). -/
def W : Nat := 2 ^ 64

/-- Embedded from `basic_mmap::char_size` (mmap.hpp lines 333-336):
`return num_bytes >> (sizeof(CharT) - 1);`.  `es` stands for
`sizeof(CharT)`.  A logical right shift of an unsigned 64-bit value cannot
overflow, so no reduction modulo `W` is needed. -/
def char_size (es num_bytes : Nat) : Nat := num_bytes >>> (es - 1)

/-- Embedded from `basic_mmap::byte_size` (mmap.hpp lines 338-341):
`return num_bytes << (sizeof(CharT) - 1);`.  The left shift of the unsigned
64-bit `size_type` wraps modulo `2 ^ 64`. -/
def byte_size (es num_bytes : Nat) : Nat := (num_bytes <<< (es - 1)) % W

/-- Embedded from `detail::access_mode` (re-exported by mmap.hpp line 32):
the two access modes of a mapping. -/
inductive access_mode
  | read
  | write
deriving DecidableEq, Repr

/-- The length argument of `map`.  The source passes a single `size_type`
`num_bytes` in which a distinguished sentinel `map_entire_file`
(re-exported by mmap.hpp line 36, defined in the missing detail header)
requests a mapping of the whole file; the embedding separates the sentinel
from ordinary byte counts. -/
inductive MapLength
  | entire
  | bytes (n : Nat)
deriving DecidableEq, Repr

/-- Modelled from the spec: the state of the missing `detail::basic_mmap`
implementation, following the spec's data model of the Mapped Region
(data pointer to the first requested byte, null when unmapped; requested
length and actually mapped length in bytes; requested offset; the byte
delta from the page-aligned OS offset to the requested first byte; the
backing file handle and whether it was opened internally).  The default
values give the default-constructed, unmapped state. -/
structure MmapState where
  dataPointer : Option Nat := none
  lengthBytes : Nat := 0
  mappedLengthBytes : Nat := 0
  offsetBytes : Nat := 0
  offsetDelta : Nat := 0
  fileHandle : Option Nat := none
  handleOwned : Bool := false
deriving DecidableEq, Repr

/-- Modelled from the spec: the external collaborators of the missing
implementation — the page-allocation granularity, the file-opening service
(path token to handle), the size query on a handle (also validates the
handle), and the OS mapping call, which deterministically returns the base
address for a handle and an aligned offset. -/
structure Env where
  granularity : Nat
  resolve : Nat → Option Nat
  fileOf : Nat → Option Nat
  osBase : Nat → Nat → Nat

/-- Modelled from the spec: the error taxonomy reported through the
out-of-band `std::error_code` channel.  `none` models a clear (falsy)
error code. -/
inductive ErrorCode
  | open_failure
  | size_query_failure
  | invalid_argument
deriving DecidableEq, Repr

/-- Embedded from `basic_mmap::is_open` (mmap.hpp line 129), delegating to
the missing implementation; modelled from the spec: a valid memory mapping
exists exactly when the data pointer is non-null. -/
def MmapState.is_open (s : MmapState) : Bool := s.dataPointer.isSome

/-- Embedded from `basic_mmap::empty` (mmap.hpp line 136), delegating to
the missing implementation; modelled from the spec and the source's doc
comment ("Returns if the length that was mapped was 0"): true exactly when
the requested length is 0 bytes. -/
def MmapState.empty (s : MmapState) : Bool := s.lengthBytes == 0

/-- The `data()` accessor: the pointer to the first requested byte, null
(`none`) when no mapping exists. -/
def MmapState.data (s : MmapState) : Option Nat := s.dataPointer

/-- Modelled from the spec: the requested byte count of a `map` call — the
`num_bytes` argument itself, or, for the `map_entire_file` sentinel, the
file's current size minus the requested offset. -/
def mapLenBytes (fsz off : Nat) : MapLength → Nat
  | .entire => fsz - off
  | .bytes n => n

/-- Modelled from the spec: `detail::basic_mmap::map` over an already-open
file handle.  The aligned-region computation follows spec section 4.1:
the OS offset is the requested offset rounded down to the granularity,
`offset_delta` is the remainder, and the OS map length is the requested
byte count plus the delta.  Failure cases: an invalid handle (size query
fails), a requested offset beyond the file size, and a zero-byte request
(for which no OS mapping is ever created); every failure returns the prior
state unchanged together with the error. -/
def mapHandleImpl (env : Env) (h : Nat) (off : Nat) (len : MapLength)
    (owned : Bool) (s : MmapState) : MmapState × Option ErrorCode :=
  match env.fileOf h with
  | none => (s, some .size_query_failure)
  | some fsz =>
    if off > fsz then (s, some .invalid_argument)
    else if mapLenBytes fsz off len = 0 then (s, some .invalid_argument)
    else
      ({ dataPointer :=
           some (env.osBase h (off - off % env.granularity) +
             off % env.granularity),
         lengthBytes := mapLenBytes fsz off len,
         mappedLengthBytes := mapLenBytes fsz off len + off % env.granularity,
         offsetBytes := off,
         offsetDelta := off % env.granularity,
         fileHandle := some h,
         handleOwned := owned }, none)

/-- Modelled from the spec: `detail::basic_mmap::map` over a path token —
the file-opening collaborator resolves the path to a handle (reporting an
open failure and leaving the state unchanged when it cannot), and the
handle is then mapped with internal ownership. -/
def mapPathImpl (env : Env) (p : Nat) (off : Nat) (len : MapLength)
    (s : MmapState) : MmapState × Option ErrorCode :=
  match env.resolve p with
  | none => (s, some .open_failure)
  | some h => mapHandleImpl env h off len true s

/-- Modelled from the spec: `detail::basic_mmap::unmap` — releases the OS
mapping unconditionally if currently mapped, returning to the
default-constructed, disassociated state; a no-op on an unmapped
instance. -/
def MmapState.unmap (s : MmapState) : MmapState :=
  if s.is_open then {} else s

/-- Modelled from the spec: `detail::basic_mmap::set_length`, taking the
new conceptual length in bytes.  Raises `std::invalid_argument` (the
returned Bool) when the new byte length plus `offset_delta` exceeds the
mapped byte length, leaving the state unchanged; otherwise updates only
the requested length, not the OS mapping. -/
def MmapState.set_length (s : MmapState) (nb : Nat) : MmapState × Bool :=
  if nb + s.offsetDelta > s.mappedLengthBytes then (s, true)
  else ({ s with lengthBytes := nb }, false)

/-- Modelled from the spec: `detail::basic_mmap::set_offset`, taking the
new conceptual offset in bytes, bounded by the mapped byte length;
analogous to `set_length`. -/
def MmapState.set_offset (s : MmapState) (ob : Nat) : MmapState × Bool :=
  if ob > s.mappedLengthBytes then (s, true)
  else ({ s with offsetBytes := ob }, false)

/-- Modelled from the spec: the equality operator of the missing
implementation, which the wrapper's `operator==` (mmap.hpp lines 301-304)
delegates to — it compares the address of the first byte and the mapped
size of the two regions, not file identity or content. -/
def MmapState.op_eq (a b : MmapState) : Bool :=
  a.dataPointer == b.dataPointer && a.mappedLengthBytes == b.mappedLengthBytes

/-- Embedded from `basic_mmap::size` (mmap.hpp line 144):
`return char_size(impl_.length());`. -/
def basic_mmap.size (es : Nat) (s : MmapState) : Nat :=
  char_size es s.lengthBytes

/-- Embedded from `basic_mmap::length` (mmap.hpp line 145):
`return char_size(impl_.length());`. -/
def basic_mmap.length (es : Nat) (s : MmapState) : Nat :=
  char_size es s.lengthBytes

/-- Embedded from `basic_mmap::mapped_length` (mmap.hpp line 146):
`return char_size(impl_.mapped_length());`. -/
def basic_mmap.mapped_length (es : Nat) (s : MmapState) : Nat :=
  char_size es s.mappedLengthBytes

/-- Embedded from `basic_mmap::offset` (mmap.hpp line 153):
`return char_size(impl_.offset());`. -/
def basic_mmap.offset (es : Nat) (s : MmapState) : Nat :=
  char_size es s.offsetBytes

/-- Embedded from `basic_mmap::set_length` (mmap.hpp line 218):
`impl_.set_length(byte_size(length));`. -/
def basic_mmap.set_length (es : Nat) (s : MmapState) (n : Nat) :
    MmapState × Bool :=
  s.set_length (byte_size es n)

/-- Embedded from `basic_mmap::set_offset` (mmap.hpp line 219):
`impl_.set_offset(byte_size(offset));`. -/
def basic_mmap.set_offset (es : Nat) (s : MmapState) (n : Nat) :
    MmapState × Bool :=
  s.set_offset (byte_size es n)

/-- A mapping token for the factory functions: a path-like token or an
already-open file handle (mmap.hpp lines 383-385). -/
inductive MappingToken
  | path (p : Nat)
  | handle (h : Nat)
deriving DecidableEq, Repr

/-- Embedded from the two `basic_mmap::map` member overloads (mmap.hpp
lines 243-248 and 271-275), both of which delegate to the implementation's
map with the class's `AccessMode`; the access mode selects the OS
protection and does not change the region computation, so the model keeps
it as an unused parameter.  A path token takes the path overload, a handle
token the handle overload (with the handle borrowed, not owned). -/
def basic_mmap.map (env : Env) (_mode : access_mode) (tok : MappingToken)
    (off : Nat) (len : MapLength) (s : MmapState) :
    MmapState × Option ErrorCode :=
  match tok with
  | .path p => mapPathImpl env p off len s
  | .handle h => mapHandleImpl env h off len false s

/-- The constructors' common `if(error) { throw error; }` pattern: raise
the `std::error_code` value itself when the map call set one, otherwise
return the constructed object. -/
def throwOnError (r : MmapState × Option ErrorCode) :
    Except ErrorCode MmapState :=
  match r.2 with
  | some e => .error e
  | none => .ok r.1

/-- Embedded from the path constructor (mmap.hpp lines 84-90): default
initialisation, then `map(path, offset, num_bytes, error)`, then
`if(error) { throw error; }` — the thrown value is the `std::error_code`
itself, carried here in the `Except.error` branch. -/
def basic_mmap.ctor_path (env : Env) (mode : access_mode) (p : Nat)
    (off : Nat) (len : MapLength) : Except ErrorCode MmapState :=
  throwOnError (basic_mmap.map env mode (.path p) off len {})

/-- Modelled from the spec: the handle constructor as documented (mmap.hpp
lines 92-108) — default initialisation, then mapping the region given by
its `num_bytes` argument through the handle overload, then throwing the
error code on failure.  The source's body (line 106) instead passes the
name `length` — the member function `basic_mmap::length` — where the
`num_bytes` parameter was intended, which is ill-formed C++ (an overloaded
member-function name where a `size_type` is expected) and cannot compile
when the constructor is instantiated; this definition captures the
documented intent against which that slip is judged. -/
def basic_mmap.ctor_handle_intended (env : Env) (mode : access_mode)
    (h : Nat) (off : Nat) (len : MapLength) : Except ErrorCode MmapState :=
  throwOnError (basic_mmap.map env mode (.handle h) off len {})

/-- A sample mapped state for evaluating closed instances: the state
produced by mapping bytes 10 to 29 of the 100-byte file of `envW`. -/
def sMapped : MmapState :=
  { dataPointer := some 4106
    lengthBytes := 20
    mappedLengthBytes := 30
    offsetBytes := 10
    offsetDelta := 10
    fileHandle := some 7
    handleOwned := true }

/-- Embedded from `make_mmap` (mmap.hpp lines 369-378): default-construct
an `MMap`, call its `map` member with the token, offset, byte count and
error out-parameter, and return the instance; no exception path exists. -/
def make_mmap (env : Env) (mode : access_mode) (tok : MappingToken)
    (off : Nat) (len : MapLength) : MmapState × Option ErrorCode :=
  let mmap : MmapState := {}
  basic_mmap.map env mode tok off len mmap

/-- Embedded from `make_mmap_source` (mmap.hpp lines 387-392):
`return make_mmap<mmap_source>(token, offset, num_bytes, error);`, where
`mmap_source` is `basic_mmap<access_mode::read, char>`. -/
def make_mmap_source (env : Env) (tok : MappingToken) (off : Nat)
    (len : MapLength) : MmapState × Option ErrorCode :=
  make_mmap env .read tok off len

/-- Embedded from `make_mmap_sink` (mmap.hpp lines 401-406):
`return make_mmap<mmap_sink>(token, offset, num_bytes, error);`, where
`mmap_sink` is `basic_mmap<access_mode::write, char>`. -/
def make_mmap_sink (env : Env) (tok : MappingToken) (off : Nat)
    (len : MapLength) : MmapState × Option ErrorCode :=
  make_mmap env .write tok off len

/-- The members of `basic_mmap` whose non-const (mutating) overload the
spec says is suppressed in read mode: `data`, `begin`, `end`, `rbegin`,
`rend`, `operator[]` (index) and `sync`. -/
inductive MutMember
  | dataM
  | beginM
  | endM
  | rbeginM
  | rendM
  | indexM
  | syncM
deriving DecidableEq, Repr

/-- Embedded from the declarations of the non-const overloads in mmap.hpp:
whether the overload participates in overload resolution for a given
access mode.  `data` (lines 159-162), `end` (lines 174-177), `rbegin`
(lines 181-184), `rend` (lines 188-191) and `sync` (lines 291-294) are
guarded by `enable_if<A == access_mode::write>`, so they exist only in
write mode; the non-const `begin` (line 169) and the non-const
`operator[]` (line 200) carry no guard and exist in every mode. -/
def mut_overload_enabled (m : access_mode) : MutMember → Bool
  | .dataM => m == .write
  | .beginM => true
  | .endM => m == .write
  | .rbeginM => m == .write
  | .rendM => m == .write
  | .indexM => true
  | .syncM => m == .write

/-- Invariant of reachable `basic_mmap` states: an unmapped instance has
requested and mapped byte lengths 0 (no OS mapping is ever created for a
0-byte request, and unmapping resets the lengths). -/
def Inv (s : MmapState) : Bool :=
  s.is_open || (s.lengthBytes == 0 && s.mappedLengthBytes == 0)

/-- A concrete environment for evaluating the model on closed inputs:
page granularity 4096, one file of 100 bytes behind handle 7, reachable
from path token 3, with the OS returning base address `4096 + aligned`. -/
def envW : Env :=
  { granularity := 4096
    resolve := fun p => if p = 3 then some 7 else none
    fileOf := fun h => if h = 7 then some 100 else none
    osBase := fun _ aligned => 4096 + aligned }

theorem Inv_default : Inv {} = true := by decide

theorem Inv_mapHandle (env : Env) (h off : Nat) (len : MapLength)
    (owned : Bool) (s : MmapState) (hs : Inv s = true) :
    Inv (mapHandleImpl env h off len owned s).1 = true := by
  unfold mapHandleImpl
  cases env.fileOf h with
  | none => exact hs
  | some fsz =>
    simp only
    by_cases h1 : off > fsz
    · rw [if_pos h1]; exact hs
    · rw [if_neg h1]
      by_cases h2 : mapLenBytes fsz off len = 0
      · rw [if_pos h2]; exact hs
      · rw [if_neg h2]; rfl

theorem Inv_map (env : Env) (mode : access_mode) (tok : MappingToken)
    (off : Nat) (len : MapLength) (s : MmapState) (hs : Inv s = true) :
    Inv (basic_mmap.map env mode tok off len s).1 = true := by
  cases tok with
  | path p =>
    show Inv (mapPathImpl env p off len s).1 = true
    unfold mapPathImpl
    cases env.resolve p with
    | none => exact hs
    | some h => exact Inv_mapHandle env h off len true s hs
  | handle h => exact Inv_mapHandle env h off len false s hs

theorem Inv_unmap (s : MmapState) (hs : Inv s = true) :
    Inv s.unmap = true := by
  unfold MmapState.unmap
  by_cases h : s.is_open
  · simp only [h, if_true]; decide
  · simpa [h] using hs

theorem Inv_set_length (es : Nat) (s : MmapState) (n : Nat)
    (hs : Inv s = true) :
    Inv (basic_mmap.set_length es s n).1 = true := by
  unfold basic_mmap.set_length MmapState.set_length
  by_cases hc : byte_size es n + s.offsetDelta > s.mappedLengthBytes
  · simpa [hc] using hs
  · simp only [hc, if_false]
    unfold Inv MmapState.is_open at *
    cases hd : s.dataPointer with
    | some a => simp [hd]
    | none =>
      simp only [hd, Option.isSome_none, Bool.false_or] at hs ⊢
      simp only [Bool.and_eq_true, beq_iff_eq] at hs ⊢
      refine ⟨?_, hs.2⟩
      have : s.mappedLengthBytes = 0 := hs.2
      omega

theorem Inv_set_offset (es : Nat) (s : MmapState) (n : Nat)
    (hs : Inv s = true) :
    Inv (basic_mmap.set_offset es s n).1 = true := by
  unfold basic_mmap.set_offset MmapState.set_offset
  by_cases hc : byte_size es n > s.mappedLengthBytes
  · simpa [hc] using hs
  · simpa [hc, Inv, MmapState.is_open] using hs

/-- Shared helper: on every failure path the implementation's map returns
the prior state unchanged together with a set error, and on success it
returns a clear error and a mapped state. -/
theorem mapHandleImpl_spec (env : Env) (h off : Nat) (len : MapLength)
    (owned : Bool) (s : MmapState) :
    ((mapHandleImpl env h off len owned s).2.isSome = true →
      (mapHandleImpl env h off len owned s).1 = s) ∧
    ((mapHandleImpl env h off len owned s).2 = none →
      (mapHandleImpl env h off len owned s).1.is_open = true) := by
  unfold mapHandleImpl
  cases env.fileOf h with
  | none => exact ⟨fun _ => rfl, fun hc => by cases hc⟩
  | some fsz =>
    simp only
    by_cases h1 : off > fsz
    · rw [if_pos h1]
      exact ⟨fun _ => rfl, fun hc => by cases hc⟩
    · rw [if_neg h1]
      by_cases h2 : mapLenBytes fsz off len = 0
      · rw [if_pos h2]
        exact ⟨fun _ => rfl, fun hc => by cases hc⟩
      · rw [if_neg h2]
        exact ⟨fun hc => Bool.noConfusion hc, fun _ => rfl⟩

/-- Shared helper: the same statement for the wrapper's `map`, across both
the path and the handle overload. -/
theorem basic_mmap_map_spec (env : Env) (mode : access_mode)
    (tok : MappingToken) (off : Nat) (len : MapLength) (s : MmapState) :
    ((basic_mmap.map env mode tok off len s).2.isSome = true →
      (basic_mmap.map env mode tok off len s).1 = s) ∧
    ((basic_mmap.map env mode tok off len s).2 = none →
      (basic_mmap.map env mode tok off len s).1.is_open = true) := by
  cases tok with
  | path p =>
    show ((mapPathImpl env p off len s).2.isSome = true →
        (mapPathImpl env p off len s).1 = s) ∧
      ((mapPathImpl env p off len s).2 = none →
        (mapPathImpl env p off len s).1.is_open = true)
    unfold mapPathImpl
    cases env.resolve p with
    | none => exact ⟨fun _ => rfl, fun hc => by cases hc⟩
    | some h => exact mapHandleImpl_spec env h off len true s
  | handle h => exact mapHandleImpl_spec env h off len false s

/-- `C1`: the spec claims the byte-to-element conversion used by `size`,
`length`, `mapped_length` and `offset` is division by `sizeof(CharT)` and
its inverse is multiplication by `sizeof(CharT)`.  The code shifts by
`sizeof(CharT) - 1` instead, which for a 4-byte element divides by 8 and
multiplies by 8: at `sizeof(CharT) = 4` and `num_bytes = 8` the code's
`char_size` yields 1 where division by 4 yields 2, and the code's
`byte_size` yields 64 where multiplication by 4 yields 32.  (For 1- and
2-byte elements the shift and the division agree.) -/
theorem char_size_shift_contradicts_division :
    char_size 4 8 = 1 ∧ 8 / 4 = 2 ∧ char_size 4 8 ≠ 8 / 4 ∧
    byte_size 4 8 = 64 ∧ 8 * 4 = 32 ∧ byte_size 4 8 ≠ 8 * 4 ∧
    char_size 1 8 = 8 / 1 ∧ char_size 2 8 = 8 / 2 := by
  refine ⟨rfl, rfl, by decide, ?_, rfl, ?_, rfl, rfl⟩
  · show 8 <<< 3 % W = 64
    decide
  · show 8 <<< 3 % W ≠ 32
    decide

/-- `C3` counterexample: the non-const `begin()` overload is not excluded
in read mode — it carries no `enable_if` guard in the source (mmap.hpp
line 169), so it participates in overload resolution for
`access_mode::read`, contradicting the claim that every listed mutating
overload is excluded at the type level. -/
theorem read_mode_nonconst_begin_enabled :
    mut_overload_enabled access_mode.read MutMember.beginM = true := by
  decide

/-- `C3` amended: in the read-mode instantiation the non-const overloads
of `data()`, `end()`, `rbegin()`, `rend()` and the `sync` member are
excluded statically by their `enable_if<A == access_mode::write>` guards,
but the non-const `begin()` overload and the non-const `operator[]` carry
no guard and remain available; in write mode every listed overload is
available. -/
theorem read_mode_capability_guards :
    (∀ mm : MutMember,
      mut_overload_enabled access_mode.read mm =
        (mm == MutMember.beginM || mm == MutMember.indexM)) ∧
    (∀ mm : MutMember, mut_overload_enabled access_mode.write mm = true) := by
  constructor
  · intro mm; cases mm <;> rfl
  · intro mm; cases mm <;> rfl

theorem throwOnError_error (r : MmapState × Option ErrorCode)
    (e : ErrorCode) :
    throwOnError r = Except.error e ↔ r.2 = some e := by
  unfold throwOnError
  cases hr : r.2 with
  | some e0 =>
    constructor
    · intro hh; injection hh with hh; rw [hh]
    · intro hh; injection hh with hh; rw [hh]
  | none =>
    constructor
    · intro hh; exact Except.noConfusion hh
    · intro hh; exact Option.noConfusion hh

theorem throwOnError_ok (r : MmapState × Option ErrorCode) (s : MmapState) :
    throwOnError r = Except.ok s → r.2 = none ∧ r.1 = s := by
  unfold throwOnError
  cases hr : r.2 with
  | some e0 =>
    intro hh; exact Except.noConfusion hh
  | none =>
    intro hh; injection hh with hh; exact ⟨rfl, hh⟩

/-- Shared helper: a zero-byte map request fails on every path, leaving
the prior state untouched and creating no mapping. -/
theorem map_zero_helper (env : Env) (mode : access_mode)
    (tok : MappingToken) (off : Nat) (s : MmapState) :
    (basic_mmap.map env mode tok off (MapLength.bytes 0) s).1 = s ∧
    (basic_mmap.map env mode tok off (MapLength.bytes 0) s).2.isSome = true := by
  have hh : ∀ h owned,
      (mapHandleImpl env h off (MapLength.bytes 0) owned s).1 = s ∧
      (mapHandleImpl env h off (MapLength.bytes 0) owned s).2.isSome = true := by
    intro h owned
    unfold mapHandleImpl
    cases env.fileOf h with
    | none => exact ⟨rfl, rfl⟩
    | some fsz =>
      simp only
      by_cases h1 : off > fsz
      · rw [if_pos h1]; exact ⟨rfl, rfl⟩
      · have h0 : mapLenBytes fsz off (MapLength.bytes 0) = 0 := rfl
        rw [if_neg h1, if_pos h0]
        exact ⟨rfl, rfl⟩
  cases tok with
  | path p =>
    show ((mapPathImpl env p off (MapLength.bytes 0) s).1 = s ∧
      (mapPathImpl env p off (MapLength.bytes 0) s).2.isSome = true)
    unfold mapPathImpl
    cases env.resolve p with
    | none => exact ⟨rfl, rfl⟩
    | some h => exact hh h true
  | handle h => exact hh h false

/-- Shared helper: the implementation's map behaves identically whether
the handle is owned or borrowed, except for the recorded ownership flag:
the resulting data pointer, mapped byte length and error are equal. -/
theorem mapHandleImpl_owned_irrelevant (env : Env) (h off : Nat)
    (len : MapLength) (s : MmapState) :
    ((mapHandleImpl env h off len true s).1.dataPointer =
        (mapHandleImpl env h off len false s).1.dataPointer ∧
      (mapHandleImpl env h off len true s).1.mappedLengthBytes =
        (mapHandleImpl env h off len false s).1.mappedLengthBytes) ∧
    (mapHandleImpl env h off len true s).2 =
      (mapHandleImpl env h off len false s).2 := by
  unfold mapHandleImpl
  cases env.fileOf h with
  | none => exact ⟨⟨rfl, rfl⟩, rfl⟩
  | some fsz =>
    simp only
    by_cases h1 : off > fsz
    · rw [if_pos h1, if_pos h1]; exact ⟨⟨rfl, rfl⟩, rfl⟩
    · rw [if_neg h1, if_neg h1]
      by_cases h2 : mapLenBytes fsz off len = 0
      · rw [if_pos h2, if_pos h2]; exact ⟨⟨rfl, rfl⟩, rfl⟩
      · rw [if_neg h2, if_neg h2]; exact ⟨⟨rfl, rfl⟩, rfl⟩

/-- Shared helper: the wrapper's shift-based byte conversion round-trips
exactly on every element count whose byte size fits in the 64-bit
`size_type` — left and right shifts by the same amount cancel. -/
theorem roundtrip_char_byte (es k : Nat) (hk : k * 2 ^ (es - 1) < W) :
    char_size es (byte_size es k) = k := by
  unfold char_size byte_size
  rw [Nat.shiftLeft_eq, Nat.mod_eq_of_lt hk, Nat.shiftRight_eq_div_pow]
  exact Nat.mul_div_cancel k (Nat.pos_pow_of_pos _ (by decide))

/-- `C4`: when the requested new length's byte size plus `offset_delta`
exceeds `mapped_length`, `set_length` raises the invalid-argument
condition (the returned flag) and returns the prior state unchanged; for
every in-bounds new length it changes only the conceptual length field —
the data pointer, mapped length, offsets and handle are untouched, so the
OS mapping is not affected. -/
theorem set_length_bounds_check (es : Nat) (s : MmapState) (n : Nat) :
    (byte_size es n + s.offsetDelta > s.mappedLengthBytes →
      basic_mmap.set_length es s n = (s, true)) ∧
    (byte_size es n + s.offsetDelta ≤ s.mappedLengthBytes →
      basic_mmap.set_length es s n =
        ({ s with lengthBytes := byte_size es n }, false)) := by
  unfold basic_mmap.set_length MmapState.set_length
  exact ⟨fun hgt => if_pos hgt, fun hle => if_neg (Nat.not_lt.mpr hle)⟩

theorem set_length_bounds_check_witness :
    basic_mmap.set_length 1 { mappedLengthBytes := 10, offsetDelta := 2 } 20 =
      ({ mappedLengthBytes := 10, offsetDelta := 2 }, true) ∧
    basic_mmap.set_length 1 { mappedLengthBytes := 10, offsetDelta := 2 } 5 =
      ({ lengthBytes := byte_size 1 5, mappedLengthBytes := 10,
         offsetDelta := 2 }, false) :=
  ⟨(set_length_bounds_check 1 { mappedLengthBytes := 10, offsetDelta := 2 }
      20).1 (by decide),
   (set_length_bounds_check 1 { mappedLengthBytes := 10, offsetDelta := 2 }
      5).2 (by decide)⟩

/-- `C5`: for in-bounds element counts whose byte size does not overflow
the 64-bit `size_type`, `set_length(n)` followed by `size()` returns
exactly n and `set_offset(m)` followed by `offset()` returns exactly m:
the element counts round-trip through the shift-based byte conversion
exactly (the two shifts cancel for every element size). -/
theorem set_length_offset_roundtrip (es : Nat) (s : MmapState) (n m : Nat)
    (hn : n * 2 ^ (es - 1) < W)
    (hm : m * 2 ^ (es - 1) < W)
    (hnb : byte_size es n + s.offsetDelta ≤ s.mappedLengthBytes)
    (hmb : byte_size es m ≤ s.mappedLengthBytes) :
    basic_mmap.size es (basic_mmap.set_length es s n).1 = n ∧
    basic_mmap.offset es (basic_mmap.set_offset es s m).1 = m := by
  constructor
  · unfold basic_mmap.set_length MmapState.set_length
    rw [if_neg (Nat.not_lt.mpr hnb)]
    exact roundtrip_char_byte es n hn
  · unfold basic_mmap.set_offset MmapState.set_offset
    rw [if_neg (Nat.not_lt.mpr hmb)]
    exact roundtrip_char_byte es m hm

theorem set_length_offset_roundtrip_witness :
    basic_mmap.size 4
      (basic_mmap.set_length 4 { mappedLengthBytes := 100 } 5).1 = 5 ∧
    basic_mmap.offset 4
      (basic_mmap.set_offset 4 { mappedLengthBytes := 100 } 3).1 = 3 :=
  set_length_offset_roundtrip 4 { mappedLengthBytes := 100 } 5 3
    (by decide) (by decide) (by decide) (by decide)

/-- `C6`: a map request of 0 bytes never creates a mapping — from a fresh
(default-constructed) instance, and for every offset and token, the
instance afterwards satisfies `is_open() = false` and `empty() = true`;
and on every state satisfying the reachable-state invariant, `empty()` is
true exactly when the instance is unmapped or the requested length is
0. -/
theorem map_zero_length_leaves_unmapped (env : Env) (mode : access_mode)
    (tok : MappingToken) (off : Nat) (s : MmapState) :
    ((basic_mmap.map env mode tok off (MapLength.bytes 0)
        ({} : MmapState)).1.is_open = false ∧
     (basic_mmap.map env mode tok off (MapLength.bytes 0)
        ({} : MmapState)).1.empty = true) ∧
    (Inv s = true →
      (s.empty = true ↔ (s.is_open = false ∨ s.lengthBytes = 0))) := by
  constructor
  · have h := map_zero_helper env mode tok off ({} : MmapState)
    rw [h.1]
    exact ⟨rfl, rfl⟩
  · intro hInv
    simp only [Inv, Bool.or_eq_true, Bool.and_eq_true, beq_iff_eq] at hInv
    simp only [MmapState.empty, beq_iff_eq]
    constructor
    · intro he; exact Or.inr he
    · rintro (hio | hl)
      · rcases hInv with hopen | hl0
        · rw [hio] at hopen; exact Bool.noConfusion hopen
        · exact hl0.1
      · exact hl

theorem map_zero_length_leaves_unmapped_witness :
    ((basic_mmap.map envW access_mode.read (MappingToken.path 3) 7
        (MapLength.bytes 0) ({} : MmapState)).1.is_open = false ∧
     (basic_mmap.map envW access_mode.read (MappingToken.path 3) 7
        (MapLength.bytes 0) ({} : MmapState)).1.empty = true) ∧
    (MmapState.empty {} = true ↔
      (MmapState.is_open {} = false ∨ MmapState.lengthBytes {} = 0)) :=
  ⟨(map_zero_length_leaves_unmapped envW access_mode.read
      (MappingToken.path 3) 7 {}).1,
   (map_zero_length_leaves_unmapped envW access_mode.read
      (MappingToken.path 3) 7 {}).2 (by decide)⟩

/-- `C7`: whenever `map` fails (the out-of-band error value is set), the
object is left exactly in the state it had before the call — never
partially mapped; whenever the error value is clear, the object is
mapped.  This holds for both the path and the handle overload. -/
theorem map_reports_error_and_preserves_state (env : Env)
    (mode : access_mode) (tok : MappingToken) (off : Nat) (len : MapLength)
    (s : MmapState) :
    ((basic_mmap.map env mode tok off len s).2.isSome = true →
      (basic_mmap.map env mode tok off len s).1 = s) ∧
    ((basic_mmap.map env mode tok off len s).2 = none →
      (basic_mmap.map env mode tok off len s).1.is_open = true) :=
  basic_mmap_map_spec env mode tok off len s

theorem map_reports_error_and_preserves_state_witness :
    (basic_mmap.map envW access_mode.read (MappingToken.path 99) 0
      (MapLength.bytes 5) ({} : MmapState)).1 = ({} : MmapState) ∧
    (basic_mmap.map envW access_mode.write (MappingToken.handle 7) 10
      (MapLength.bytes 20) ({} : MmapState)).1.is_open = true :=
  ⟨(map_reports_error_and_preserves_state envW access_mode.read
      (MappingToken.path 99) 0 (MapLength.bytes 5) {}).1 rfl,
   (map_reports_error_and_preserves_state envW access_mode.write
      (MappingToken.handle 7) 10 (MapLength.bytes 20) {}).2 rfl⟩

/-- `C8`: `unmap` is idempotent — on an unmapped instance it is a no-op,
and on every instance the result is unmapped (`is_open()` returns false
and `data()` is null), so a second `unmap` changes nothing. -/
theorem unmap_idempotent_and_releases (s : MmapState) :
    (s.is_open = false → s.unmap = s) ∧
    s.unmap.is_open = false ∧
    s.unmap.data = none ∧
    s.unmap.unmap = s.unmap := by
  have hnoop : ∀ t : MmapState, t.is_open = false → t.unmap = t := by
    intro t ht
    unfold MmapState.unmap
    rw [ht]
    rfl
  have hopen : ∀ t : MmapState, t.unmap.is_open = false := by
    intro t
    unfold MmapState.unmap
    cases ht : t.is_open with
    | true => rfl
    | false => exact ht
  have hdata : ∀ t : MmapState, t.unmap.data = none := by
    intro t
    unfold MmapState.unmap
    cases ht : t.is_open with
    | true => rfl
    | false =>
      show t.data = none
      unfold MmapState.is_open at ht
      unfold MmapState.data
      cases hd : t.dataPointer with
      | none => rfl
      | some a => rw [hd] at ht; exact Bool.noConfusion ht
  exact ⟨hnoop s, hopen s, hdata s, hnoop s.unmap (hopen s)⟩

theorem unmap_idempotent_and_releases_witness :
    (sMapped.is_open = false → sMapped.unmap = sMapped) ∧
    sMapped.unmap.is_open = false ∧
    sMapped.unmap.data = none ∧
    sMapped.unmap.unmap = sMapped.unmap :=
  unmap_idempotent_and_releases sMapped

/-- `C9`: the factory functions are equivalent to default-constructing the
corresponding `basic_mmap` and calling its `map` member with the same
arguments; `make_mmap_source` instantiates the read mode and
`make_mmap_sink` the write mode.  In the model all three are total
functions returning the instance together with the out-of-band error
value — no exception channel exists. -/
theorem make_mmap_delegates_to_map (env : Env) (mode : access_mode)
    (tok : MappingToken) (off : Nat) (len : MapLength) :
    make_mmap env mode tok off len =
      basic_mmap.map env mode tok off len {} ∧
    make_mmap_source env tok off len =
      basic_mmap.map env access_mode.read tok off len {} ∧
    make_mmap_sink env tok off len =
      basic_mmap.map env access_mode.write tok off len {} :=
  ⟨rfl, rfl, rfl⟩

/-- `C10`: the path constructor throws exactly when the underlying map
call sets the error, and the thrown value is the error-code value itself
(the `Except.error` payload is the very code the map call produced); on
every failing input the map call leaves the default-initialised state
untouched, so the object is default-initialised (unmapped) when the
exception propagates; when the constructor returns normally the error is
clear and the object is mapped. -/
theorem ctor_path_throws_iff_map_error (env : Env) (mode : access_mode)
    (p off : Nat) (len : MapLength) :
    (∀ e, basic_mmap.ctor_path env mode p off len = Except.error e ↔
      (basic_mmap.map env mode (MappingToken.path p) off len {}).2 =
        some e) ∧
    (∀ e, (basic_mmap.map env mode (MappingToken.path p) off len {}).2 =
        some e →
      (basic_mmap.map env mode (MappingToken.path p) off len
        ({} : MmapState)).1 = ({} : MmapState)) ∧
    (∀ s1, basic_mmap.ctor_path env mode p off len = Except.ok s1 →
      (basic_mmap.map env mode (MappingToken.path p) off len {}).2 = none ∧
      s1.is_open = true) := by
  refine ⟨?_, ?_, ?_⟩
  · intro e
    exact throwOnError_error
      (basic_mmap.map env mode (MappingToken.path p) off len {}) e
  · intro e he
    refine (basic_mmap_map_spec env mode (MappingToken.path p) off len
      {}).1 ?_
    rw [he]
    rfl
  · intro s1 hok
    have hr := throwOnError_ok
      (basic_mmap.map env mode (MappingToken.path p) off len {}) s1 hok
    refine ⟨hr.1, ?_⟩
    rw [← hr.2]
    exact (basic_mmap_map_spec env mode (MappingToken.path p) off len
      {}).2 hr.1

theorem ctor_path_throws_iff_map_error_witness :
    (basic_mmap.ctor_path envW access_mode.read 99 0 (MapLength.bytes 5) =
        Except.error ErrorCode.open_failure ↔
      (basic_mmap.map envW access_mode.read (MappingToken.path 99) 0
        (MapLength.bytes 5) {}).2 = some ErrorCode.open_failure) ∧
    (basic_mmap.map envW access_mode.read (MappingToken.path 99) 0
      (MapLength.bytes 5) ({} : MmapState)).1 = ({} : MmapState) :=
  ⟨(ctor_path_throws_iff_map_error envW access_mode.read 99 0
      (MapLength.bytes 5)).1 ErrorCode.open_failure,
   (ctor_path_throws_iff_map_error envW access_mode.read 99 0
      (MapLength.bytes 5)).2.1 ErrorCode.open_failure rfl⟩

/-- `C2`: the documented behaviour of the two mapping constructors — as
captured by the handle constructor's intent model — is equivalent: when
the path resolves to the same file handle, constructing from the path and
constructing from the pre-opened handle with the same offset and length
produce the same (`data()`, `mapped_length`) pair, and on success the
equality operator (which compares exactly that pair) returns true.  The
shipped constructor body cannot exhibit this: mmap.hpp line 106 passes
`length` — the member function name — where `num_bytes` was intended, so
the region it would map is not the one given by `num_bytes`. -/
theorem ctor_path_handle_same_region (env : Env) (mode : access_mode)
    (p h off : Nat) (len : MapLength) (hres : env.resolve p = some h) :
    ((basic_mmap.ctor_path env mode p off len).toOption.map
        (fun s => (s.data, s.mappedLengthBytes)) =
      (basic_mmap.ctor_handle_intended env mode h off len).toOption.map
        (fun s => (s.data, s.mappedLengthBytes))) ∧
    (∀ s1 s2, basic_mmap.ctor_path env mode p off len = Except.ok s1 →
      basic_mmap.ctor_handle_intended env mode h off len = Except.ok s2 →
      s1.op_eq s2 = true) := by
  have hmap : basic_mmap.map env mode (MappingToken.path p) off len
      ({} : MmapState) = mapHandleImpl env h off len true {} := by
    show mapPathImpl env p off len {} = mapHandleImpl env h off len true {}
    unfold mapPathImpl
    rw [hres]
  have hAB := mapHandleImpl_owned_irrelevant env h off len ({} : MmapState)
  constructor
  · unfold basic_mmap.ctor_path basic_mmap.ctor_handle_intended
    rw [hmap]
    show (throwOnError (mapHandleImpl env h off len true {})).toOption.map
        (fun s => (s.data, s.mappedLengthBytes)) =
      (throwOnError (mapHandleImpl env h off len false {})).toOption.map
        (fun s => (s.data, s.mappedLengthBytes))
    unfold throwOnError
    cases hA : (mapHandleImpl env h off len true ({} : MmapState)).2 with
    | some e =>
      rw [hAB.2] at hA
      rw [hA]
    | none =>
      rw [hAB.2] at hA
      rw [hA]
      show some ((mapHandleImpl env h off len true
          ({} : MmapState)).1.data, _) = some _
      unfold MmapState.data
      rw [hAB.1.1, hAB.1.2]
  · intro s1 s2 h1 h2
    unfold basic_mmap.ctor_path at h1
    rw [hmap] at h1
    have hr1 := throwOnError_ok (mapHandleImpl env h off len true {}) s1 h1
    have hr2 := throwOnError_ok
      (mapHandleImpl env h off len false {}) s2 h2
    rw [← hr1.2, ← hr2.2]
    unfold MmapState.op_eq
    rw [hAB.1.1, hAB.1.2]
    simp

theorem ctor_path_handle_same_region_witness :
    envW.resolve 3 = some 7 ∧
    ((basic_mmap.ctor_path envW access_mode.read 3 10
        (MapLength.bytes 20)).toOption.map
        (fun s => (s.data, s.mappedLengthBytes)) =
      (basic_mmap.ctor_handle_intended envW access_mode.read 7 10
        (MapLength.bytes 20)).toOption.map
        (fun s => (s.data, s.mappedLengthBytes))) :=
  ⟨rfl,
   (ctor_path_handle_same_region envW access_mode.read 3 7 10
      (MapLength.bytes 20) rfl).1⟩

end mio
